import Mathlib

/-!
# Verification of the dev-helper command-safety gate

Shallow embedding of the dev-helper CLI's safety-critical code:

* `utils/safety.js` — the Command Classifier (`isCommandSafe` together with the
  `SAFE_COMMAND_PATTERNS` allowlist and `DANGEROUS_COMMAND_PATTERNS` blocklist,
  both lists of JavaScript regular expressions tested with `RegExp.test`);
* the Guarded Executor (`safeRunCommand`, `commandExists`, `getCommandVersion`)
  and the legacy unguarded runner (`runCommand` in `utils/runner.js`,
  `isElevated` in `utils/platform.js`);
* the slices of the detectors and the `explain` flow that the claims mention
  (`NodeJSDetector`, the Docker-Compose check, `checkGitErrors`).

The JavaScript regexes are embedded by a small executable matcher `rtest`
that reproduces the semantics of `RegExp.test` for exactly the constructs the
two pattern lists use: literals under the `i` flag, `\s` `\w` `\d` and
character classes, `+` `*` `?` over character classes, alternation, the
anchors `^` `$`, the word boundary `\b`, negative lookahead `(?!...)` and the
single-character negative lookbehind `(?<!2)`.
-/

namespace DevHelper

/-! ## Character classes (JavaScript semantics, non-unicode mode) -/

/-- JavaScript `\s` (and the character set removed by `String.prototype.trim`):
whitespace, line terminators, and the Unicode space separators. -/
def jsSpace (c : Char) : Bool :=
  let n := c.toNat
  (9 ≤ n && n ≤ 13) || n == 32 || n == 0xa0 || n == 0x1680 ||
  (0x2000 ≤ n && n ≤ 0x200a) || n == 0x2028 || n == 0x2029 ||
  n == 0x202f || n == 0x205f || n == 0x3000 || n == 0xfeff

/-- JavaScript `\w`: `[A-Za-z0-9_]`. -/
def jsWord (c : Char) : Bool :=
  (('a' ≤ c && c ≤ 'z') || ('A' ≤ c && c ≤ 'Z') || ('0' ≤ c && c ≤ '9') || c == '_')

/-- JavaScript `\d`: `[0-9]`. -/
def jsDigit (c : Char) : Bool := '0' ≤ c && c ≤ '9'

/-- Case-insensitive match of input character `ch` against pattern character
`p`, where `p` is already lower case (all pattern literals below are written
lower-cased because every letter-containing source regex carries the `i`
flag).  This is the `i`-flag canonicalization of a non-unicode JavaScript
regex restricted to ASCII pattern characters: `ch` matches iff it equals `p`
or it is an ASCII upper-case letter whose lower-case form is `p`. -/
def ciEq (p ch : Char) : Bool :=
  ch == p || (65 ≤ ch.toNat && ch.toNat ≤ 90 && (ch.toNat + 32 == p.toNat))

/-- `String.prototype.trim`: drop `jsSpace` characters from both ends. -/
def trimChars (l : List Char) : List Char :=
  ((l.dropWhile jsSpace).reverse.dropWhile jsSpace).reverse

/-- Single-character classes occurring in the two pattern lists. -/
inductive RClass where
  /-- a literal pattern character (stored lower-cased, matched by `ciEq`) -/
  | lit : Char → RClass
  /-- `\s` -/
  | space : RClass
  /-- `\d` -/
  | digit : RClass
  /-- `\w` possibly extended with extra literal characters, e.g. `[\w.]`,
      `[\w-]`, `[-\w]` -/
  | wordOr : List Char → RClass
  /-- an explicit set such as `[;&|]` (matched exactly; the source patterns
      using it carry no `i` flag and contain no letters) -/
  | oneOf : List Char → RClass
  /-- a negated set such as `[^"]` -/
  | noneOf : List Char → RClass
deriving DecidableEq, Repr

def RClass.check : RClass → Char → Bool
  | .lit p, ch => ciEq p ch
  | .space, ch => jsSpace ch
  | .digit, ch => jsDigit ch
  | .wordOr extra, ch => jsWord ch || extra.contains ch
  | .oneOf s, ch => s.contains ch
  | .noneOf s, ch => !s.contains ch

/-- Regex abstract syntax, covering exactly the constructs used by
`SAFE_COMMAND_PATTERNS` and `DANGEROUS_COMMAND_PATTERNS`. -/
inductive Regex where
  | eps : Regex
  /-- one character from a class -/
  | cc : RClass → Regex
  /-- `*` over a character class (`+` is derived) -/
  | star : RClass → Regex
  | seq : Regex → Regex → Regex
  | alt : Regex → Regex → Regex
  /-- `?` -/
  | opt : Regex → Regex
  /-- `^` (no `m` flag: start of input) -/
  | bos : Regex
  /-- `$` (no `m` flag: end of input) -/
  | eos : Regex
  /-- `\b` -/
  | wb : Regex
  /-- negative lookahead `(?!...)` -/
  | nla : Regex → Regex
  /-- single-character negative lookbehind, `(?<!c)` -/
  | nlb : Char → Regex
deriving DecidableEq, Repr

/-- Is there a word character adjacent to the current position on the given
side (`[]` = edge of input, counts as non-word)? -/
def headIsWord : List Char → Bool
  | [] => false
  | c :: _ => jsWord c

/-- `\b`: exactly one of the two neighbouring characters is a word
character.  `pre` is the reversed prefix, `rest` the remaining input. -/
def atWordBoundary (pre rest : List Char) : Bool :=
  headIsWord pre != headIsWord rest

/-- All ways for `star c` to consume a (possibly empty) run of
class characters, continuing with `k`. -/
def starLoop (c : RClass) : List Char → List Char → (List Char → List Char → Bool) → Bool
  | pre, [], k => k pre []
  | pre, h :: t, k => k pre (h :: t) || (c.check h && starLoop c (h :: pre) t k)

/-- Backtracking matcher: does `r` match some prefix of `rest` such that the
continuation `k` accepts the state after it?  `pre` is the reversed prefix of
the input before the current position (used by `\b` and lookbehind). -/
def mmatch : Regex → List Char → List Char → (List Char → List Char → Bool) → Bool
  | .eps, pre, rest, k => k pre rest
  | .cc c, pre, rest, k =>
    match rest with
    | [] => false
    | h :: t => c.check h && k (h :: pre) t
  | .star c, pre, rest, k => starLoop c pre rest k
  | .seq a b, pre, rest, k => mmatch a pre rest (fun p r => mmatch b p r k)
  | .alt a b, pre, rest, k => mmatch a pre rest k || mmatch b pre rest k
  | .opt a, pre, rest, k => k pre rest || mmatch a pre rest k
  | .bos, pre, rest, k => pre.isEmpty && k pre rest
  | .eos, pre, rest, k => rest.isEmpty && k pre rest
  | .wb, pre, rest, k => atWordBoundary pre rest && k pre rest
  | .nla a, pre, rest, k => !(mmatch a pre rest fun _ _ => true) && k pre rest
  | .nlb c, pre, rest, k =>
    (match pre with
     | [] => true
     | p :: _ => !(p == c)) && k pre rest

/-- Try to match `r` at the current position or at any later one
(`RegExp.test` is an unanchored search). -/
def searchFrom (r : Regex) : List Char → List Char → Bool
  | pre, rest =>
    mmatch r pre rest (fun _ _ => true) ||
    match rest with
    | [] => false
    | h :: t => searchFrom r (h :: pre) t

/-- `RegExp.prototype.test` on a whole input. -/
def rtest (r : Regex) (s : List Char) : Bool := searchFrom r [] s

/-! ### Pattern-building helpers -/

/-- A sequence of literal characters (the string must be written lower-cased,
matching the `i` flag of the source regexes). -/
def rstr (s : String) : Regex :=
  s.toList.foldr (fun c r => Regex.seq (.cc (.lit c)) r) .eps

def seqs (l : List Regex) : Regex := l.foldr Regex.seq .eps

def alts : List Regex → Regex
  | [] => .nla .eps
  | h :: t => t.foldl Regex.alt h

/-- `\s+` -/
def wsp : Regex := .seq (.cc .space) (.star .space)

/-- `\w+` -/
def wplus : Regex := .seq (.cc (.wordOr [])) (.star (.wordOr []))

/-! ## The allowlist — `SAFE_COMMAND_PATTERNS` (utils/safety.js)

Every entry is annotated with the source regex literal (all carry the `i`
flag, hence the lower-cased literals). -/

/-- Shape of the version-check entries: `^TOOL\s+FLAG$` with `i` flag. -/
def verCmd (tool flag : String) : Regex := seqs [.bos, rstr tool, wsp, rstr flag, .eos]

/-- Optional trailing stderr-merge: the `(\s+2>&1)?` group of several git
allowlist entries. -/
def optStderr : Regex := .opt (.seq wsp (rstr "2>&1"))

/-- Source: `^git\s+config\s+--get\s+[\w.]+$` -/
def aGitConfigGet : Regex :=
  seqs [.bos, rstr "git", wsp, rstr "config", wsp, rstr "--get", wsp,
        .cc (.wordOr ['.']), .star (.wordOr ['.']), .eos]

/-- Source: `^git\s+log\s+-1\s+--format="[^"]*"(\s+2>&1)?$` -/
def aGitLogFormat : Regex :=
  seqs [.bos, rstr "git", wsp, rstr "log", wsp, rstr "-1", wsp,
        rstr "--format=\"", .star (.noneOf ['"']), rstr "\"", optStderr, .eos]

/-- Source: `^git\s+rev-list\s+--left-right\s+--count\s+HEAD\.\.\.@\{upstream\}(\s+2>&1)?$` -/
def aGitRevList : Regex :=
  seqs [.bos, rstr "git", wsp, rstr "rev-list", wsp, rstr "--left-right", wsp,
        rstr "--count", wsp, rstr "head...@\x7bupstream\x7d", optStderr, .eos]

/-- Source: `^git\s+reflog\s+-\d+\s+--format="[^"]*"(\s+2>&1)?$` -/
def aGitReflog : Regex :=
  seqs [.bos, rstr "git", wsp, rstr "reflog", wsp, rstr "-", .cc .digit,
        .star .digit, wsp, rstr "--format=\"", .star (.noneOf ['"']),
        rstr "\"", optStderr, .eos]

/-- `SAFE_COMMAND_PATTERNS` from utils/safety.js, in source order. -/
def SAFE_COMMAND_PATTERNS : List Regex := [
  -- version checks
  verCmd "git" "--version",            -- /^git\s+--version$/i
  verCmd "node" "--version",           -- /^node\s+--version$/i
  verCmd "node" "-v",                  -- /^node\s+-v$/i
  verCmd "npm" "--version",            -- /^npm\s+--version$/i
  verCmd "npm" "-v",                   -- /^npm\s+-v$/i
  verCmd "python" "--version",         -- /^python\s+--version$/i
  verCmd "python" "-v",                -- /^python\s+-V$/i
  verCmd "python3" "--version",        -- /^python3\s+--version$/i
  verCmd "python3" "-v",               -- /^python3\s+-V$/i
  verCmd "java" "--version",           -- /^java\s+--version$/i
  verCmd "java" "-version",            -- /^java\s+-version$/i
  seqs [.bos, rstr "java", wsp, rstr "-version", wsp, rstr "2>&1", .eos],
                                       -- /^java\s+-version\s+2>&1$/i
  verCmd "javac" "--version",          -- /^javac\s+--version$/i
  verCmd "javac" "-version",           -- /^javac\s+-version$/i
  verCmd "go" "version",               -- /^go\s+version$/i
  verCmd "rustc" "--version",          -- /^rustc\s+--version$/i
  verCmd "cargo" "--version",          -- /^cargo\s+--version$/i
  verCmd "dotnet" "--version",         -- /^dotnet\s+--version$/i
  verCmd "php" "--version",            -- /^php\s+--version$/i
  verCmd "php" "-v",                   -- /^php\s+-v$/i
  verCmd "composer" "--version",       -- /^composer\s+--version$/i
  verCmd "flutter" "--version",        -- /^flutter\s+--version$/i
  verCmd "dart" "--version",           -- /^dart\s+--version$/i
  verCmd "docker" "--version",         -- /^docker\s+--version$/i
  verCmd "docker" "-v",                -- /^docker\s+-v$/i
  verCmd "docker" "version",           -- /^docker\s+version$/i
  verCmd "mvn" "--version",            -- /^mvn\s+--version$/i
  verCmd "mvn" "-v",                   -- /^mvn\s+-v$/i
  verCmd "gradle" "--version",         -- /^gradle\s+--version$/i
  verCmd "gradle" "-v",                -- /^gradle\s+-v$/i
  verCmd "cmake" "--version",          -- /^cmake\s+--version$/i
  verCmd "make" "--version",           -- /^make\s+--version$/i
  verCmd "gcc" "--version",            -- /^gcc\s+--version$/i
  verCmd "g++" "--version",            -- /^g\+\+\s+--version$/i
  verCmd "clang" "--version",          -- /^clang\s+--version$/i
  verCmd "pip" "--version",            -- /^pip\s+--version$/i
  verCmd "pip3" "--version",           -- /^pip3\s+--version$/i
  verCmd "poetry" "--version",         -- /^poetry\s+--version$/i
  verCmd "pipenv" "--version",         -- /^pipenv\s+--version$/i
  verCmd "yarn" "--version",           -- /^yarn\s+--version$/i
  verCmd "pnpm" "--version",           -- /^pnpm\s+--version$/i
  verCmd "bun" "--version",            -- /^bun\s+--version$/i
  -- tool existence checks
  seqs [.bos, rstr "where", wsp, wplus, .eos],              -- /^where\s+\w+$/i
  seqs [.bos, rstr "which", wsp, wplus, .eos],              -- /^which\s+\w+$/i
  seqs [.bos, rstr "command", wsp, rstr "-v", wsp, wplus, .eos],
                                                            -- /^command\s+-v\s+\w+$/i
  -- git read-only operations
  seqs [.bos, rstr "git", wsp, rstr "config", wsp, rstr "--global", wsp, rstr "user.name", .eos],
                     -- /^git\s+config\s+--global\s+user\.name$/i
  seqs [.bos, rstr "git", wsp, rstr "config", wsp, rstr "--global", wsp, rstr "user.email", .eos],
                     -- /^git\s+config\s+--global\s+user\.email$/i
  seqs [.bos, rstr "git", wsp, rstr "config", wsp, rstr "--global", wsp, rstr "init.defaultbranch", .eos],
                     -- /^git\s+config\s+--global\s+init\.defaultBranch$/i
  aGitConfigGet,
  seqs [.bos, rstr "git", wsp, rstr "status", .eos],        -- /^git\s+status$/i
  seqs [.bos, rstr "git", wsp, rstr "status", wsp, rstr "--porcelain", optStderr, .eos],
                     -- /^git\s+status\s+--porcelain(\s+2>&1)?$/i
  seqs [.bos, rstr "git", wsp, rstr "rev-parse", wsp, rstr "--git-dir", .eos],
                     -- /^git\s+rev-parse\s+--git-dir$/i
  seqs [.bos, rstr "git", wsp, rstr "rev-parse", wsp, rstr "--is-inside-work-tree", optStderr, .eos],
                     -- /^git\s+rev-parse\s+--is-inside-work-tree(\s+2>&1)?$/i
  seqs [.bos, rstr "git", wsp, rstr "branch", wsp, rstr "--show-current", optStderr, .eos],
                     -- /^git\s+branch\s+--show-current(\s+2>&1)?$/i
  seqs [.bos, rstr "git", wsp, rstr "symbolic-ref", wsp, rstr "head", optStderr, .eos],
                     -- /^git\s+symbolic-ref\s+HEAD(\s+2>&1)?$/i
  seqs [.bos, rstr "git", wsp, rstr "diff", wsp, rstr "--cached", wsp, rstr "--quiet", optStderr, .eos],
                     -- /^git\s+diff\s+--cached\s+--quiet(\s+2>&1)?$/i
  seqs [.bos, rstr "git", wsp, rstr "ls-files", wsp, rstr "--others", wsp, rstr "--exclude-standard", optStderr, .eos],
                     -- /^git\s+ls-files\s+--others\s+--exclude-standard(\s+2>&1)?$/i
  seqs [.bos, rstr "git", wsp, rstr "ls-files", wsp, rstr "-u", optStderr, .eos],
                     -- /^git\s+ls-files\s+-u(\s+2>&1)?$/i
  seqs [.bos, rstr "git", wsp, rstr "remote", optStderr, .eos],
                     -- /^git\s+remote(\s+2>&1)?$/i
  aGitLogFormat,
  aGitRevList,
  seqs [.bos, rstr "git", wsp, rstr "diff", wsp, rstr "--name-only", wsp, rstr "--diff-filter=u", optStderr, .eos],
                     -- /^git\s+diff\s+--name-only\s+--diff-filter=U(\s+2>&1)?$/i
  seqs [.bos, rstr "git", wsp, rstr "stash", wsp, rstr "list", optStderr, .eos],
                     -- /^git\s+stash\s+list(\s+2>&1)?$/i
  aGitReflog,
  -- docker read-only
  seqs [.bos, rstr "docker", wsp, rstr "info", .eos],       -- /^docker\s+info$/i
  seqs [.bos, rstr "docker", wsp, rstr "ps", .eos]          -- /^docker\s+ps$/i
]

/-! ## The blocklist — `DANGEROUS_COMMAND_PATTERNS` (utils/safety.js) -/

/-- Shape `\bTOOL\s+(sub1|sub2|...)` with `i` flag. -/
def denySub (tool : String) (subs : List String) : Regex :=
  seqs [.wb, rstr tool, wsp, alts (subs.map rstr)]

/-- Shape `\bTOOL\s+(?!flag1|flag2)` with `i` flag. -/
def denyUnlessFlag (tool : String) (flags : List String) : Regex :=
  seqs [.wb, rstr tool, wsp, .nla (alts (flags.map rstr))]

/-- Shape `\bVERB\s` with `i` flag (the destructive filesystem verbs). -/
def denyVerbSp (verb : String) : Regex := seqs [.wb, rstr verb, .cc .space]

/-- Source: `[;&|](?!1)` (no `i` flag) — chaining characters, with the
lookahead that exempts a following `1` so that `2>&1` survives. -/
def dChain : Regex := .seq (.cc (.oneOf [';', '&', '|'])) (.nla (rstr "1"))

/-- Source: `\$\(` — command substitution `$(`. -/
def dSubst : Regex := rstr "$("

/-- Source: a single backtick — backtick command substitution. -/
def dBacktick : Regex := rstr "`"

/-- Source: `(?<!2)>(?!&)` — output redirection, except the `2>` / `>&`
pieces of the `2>&1` idiom. -/
def dRedirOut : Regex := seqs [.nlb '2', .cc (.oneOf ['>']), .nla (rstr "&")]

/-- Source: `<(?!&)` — input redirection, except `<&`. -/
def dRedirIn : Regex := .seq (.cc (.oneOf ['<'])) (.nla (rstr "&"))

/-- `DANGEROUS_COMMAND_PATTERNS` from utils/safety.js, in source order. -/
def DANGEROUS_COMMAND_PATTERNS : List Regex := [
  -- node.js execution
  denyUnlessFlag "node" ["-v", "--version"],        -- /\bnode\s+(?!-v|--version)/i
  denySub "npm" ["start", "run", "exec", "test"],   -- /\bnpm\s+(start|run|exec|test)/i
  seqs [.wb, rstr "npm", wsp, rstr "install"],      -- /\bnpm\s+install/i
  seqs [.wb, rstr "npx", .wb],                      -- /\bnpx\b/i
  denySub "yarn" ["start", "run", "dev", "build"],  -- /\byarn\s+(start|run|dev|build)/i
  seqs [.wb, rstr "yarn", wsp, rstr "install"],     -- /\byarn\s+install/i
  denySub "pnpm" ["start", "run", "dev", "build"],  -- /\bpnpm\s+(start|run|dev|build)/i
  denySub "bun" ["run", "start", "dev"],            -- /\bbun\s+(run|start|dev)/i
  -- python execution
  seqs [.wb, rstr "python", .opt (.cc (.oneOf ['3'])), wsp,
        .nla (alts [rstr "-v", rstr "--version"])], -- /\bpython[3]?\s+(?!-V|--version)/i
  seqs [.wb, rstr "pip", .opt (.cc (.oneOf ['3'])), wsp, rstr "install"],
                                                    -- /\bpip[3]?\s+install/i
  denySub "poetry" ["install", "run"],              -- /\bpoetry\s+(install|run)/i
  denySub "pipenv" ["install", "run"],              -- /\bpipenv\s+(install|run)/i
  denySub "conda" ["install", "run", "activate"],   -- /\bconda\s+(install|run|activate)/i
  -- java execution
  denyUnlessFlag "java" ["-version", "--version"],  -- /\bjava\s+(?!-version|--version)/i
  denySub "mvn" ["compile", "install", "exec", "spring-boot:run", "package", "test"],
                       -- /\bmvn\s+(compile|install|exec|spring-boot:run|package|test)/i
  denySub "gradle" ["run", "bootrun", "build", "assemble"],
                       -- /\bgradle\s+(run|bootRun|build|assemble)/i
  seqs [.wb, rstr "./gradlew", .cc .space],         -- /\b\.\/gradlew\s/i
  -- other language execution
  denySub "go" ["run", "build", "test"],            -- /\bgo\s+(run|build|test)/i
  denySub "cargo" ["run", "build", "test"],         -- /\bcargo\s+(run|build|test)/i
  denySub "dotnet" ["run", "build", "test"],        -- /\bdotnet\s+(run|build|test)/i
  denyUnlessFlag "php" ["-v", "--version"],         -- /\bphp\s+(?!-v|--version)/i
  denySub "flutter" ["run", "build"],               -- /\bflutter\s+(run|build)/i
  seqs [.wb, rstr "dart", wsp, rstr "run"],         -- /\bdart\s+run/i
  -- docker execution
  denySub "docker" ["run", "start", "compose", "build", "exec"],
                       -- /\bdocker\s+(run|start|compose|build|exec)/i
  seqs [.wb, rstr "docker-compose", .wb],           -- /\bdocker-compose\b/i
  -- shell commands with side effects
  denyVerbSp "rm",                                  -- /\brm\s/i
  denyVerbSp "mkdir",                               -- /\bmkdir\s/i
  denyVerbSp "touch",                               -- /\btouch\s/i
  denyVerbSp "cp",                                  -- /\bcp\s/i
  denyVerbSp "mv",                                  -- /\bmv\s/i
  denyVerbSp "curl",                                -- /\bcurl\s/i
  denyVerbSp "wget",                                -- /\bwget\s/i
  seqs [.wb, rstr "sudo", .wb],                     -- /\bsudo\b/i
  seqs [.wb, rstr "sh", wsp, rstr "-c"],            -- /\bsh\s+-c/i
  seqs [.wb, rstr "bash", wsp, rstr "-c"],          -- /\bbash\s+-c/i
  .seq .wb (rstr "powershell"),                     -- /\bpowershell/i
  seqs [.wb, rstr "cmd", wsp, rstr "/c"],           -- /\bcmd\s+\/c/i
  dChain,
  dSubst,
  dBacktick,
  dRedirOut,
  dRedirIn
]

/-! ## The Command Classifier — `isCommandSafe` (utils/safety.js) -/

/-- `SafetyVerdict`: result of a classification call. -/
structure SafetyVerdict where
  safe : Bool
  reason : String
deriving DecidableEq, Repr

/-- Does any pattern in the list `.test` the (already trimmed) command? -/
def anyMatch (patterns : List Regex) (s : List Char) : Bool :=
  patterns.any fun p => rtest p s

/-- `isCommandSafe(command)` from utils/safety.js.  The input is modelled as
a `String` (the `typeof command !== 'string'` guard is outside the model);
`command = ""` models the falsy `!command` check.  `normalizedCmd =
command.trim()` is inlined as `trimChars command.toList`. -/
def isCommandSafe (command : String) : SafetyVerdict :=
  if command = "" then
    ⟨false, "Invalid command: empty or not a string"⟩
  else if anyMatch DANGEROUS_COMMAND_PATTERNS (trimChars command.toList) then
    ⟨false, "BLOCKED: Command matches dangerous pattern. dev-helper is read-only and cannot execute project code."⟩
  else if anyMatch SAFE_COMMAND_PATTERNS (trimChars command.toList) then
    ⟨true, "Command is on the safe allowlist"⟩
  else
    ⟨false, "BLOCKED: Command not on allowlist. dev-helper only executes read-only version and config checks."⟩

/-! ## The Guarded Executor — `safeRunCommand` and friends (utils/runner.js,
hardened generation)

Process spawning is modelled by an oracle `String → RawOutcome` standing for
the operating system (`execSync` either returns stdout or throws an error
carrying stdout/stderr/status), plus an event trace recording each
classification and each actual spawn. -/

/-- What the OS does to a spawned command: models the outcome of `execSync`
(`ok = true` — normal exit; `ok = false` — the thrown error, with
`error.stdout`, `error.stderr`/`error.message` and `error.status || 1`). -/
structure RawOutcome where
  ok : Bool
  stdout : String
  stderr : String
  code : Int
deriving DecidableEq, Repr

/-- Observable events of a run: a consultation of the Classifier, or an
actual process spawn. -/
inductive Event where
  | classified : String → Event
  | spawned : String → Event
deriving DecidableEq, Repr

/-- `{ success, stdout, stderr, code, blocked }` — the ExecutionResult.  The
JS objects built by `_executeCommand` carry no `blocked` field (reading it
yields `undefined`, which is falsy); this is modelled as `blocked = false`. -/
structure ExecResult where
  success : Bool
  stdout : String
  stderr : String
  code : Int
  blocked : Bool
deriving DecidableEq, Repr

/-- `trim` on `String`s. -/
def trimS (s : String) : String := String.mk (trimChars s.toList)

/-- `_executeCommand(command)` (utils/runner.js): invoke `execSync` and
package the outcome; spawns unconditionally. -/
def _executeCommand (oracle : String → RawOutcome) (command : String) :
    ExecResult × List Event :=
  let r := oracle command
  (if r.ok then ⟨true, trimS r.stdout, "", 0, false⟩
   else ⟨false, trimS r.stdout, r.stderr, r.code, false⟩,
   [.spawned command])

/-- `safeRunCommand(command)` (utils/runner.js, hardened generation): consult
`isCommandSafe`; on an unsafe verdict return the fabricated blocked result
without touching the OS; otherwise defer to `_executeCommand`. -/
def safeRunCommand (oracle : String → RawOutcome) (command : String) :
    ExecResult × List Event :=
  let safetyCheck := isCommandSafe command
  if safetyCheck.safe then
    let (r, tr) := _executeCommand oracle command
    (r, .classified command :: tr)
  else
    (⟨false, "", "[SAFETY] Command blocked: " ++ safetyCheck.reason, -1, true⟩,
     [.classified command])

/-- `runCommand` of the hardened runner: routes every call through
`safeRunCommand`. -/
def runCommand (oracle : String → RawOutcome) (command : String) :
    ExecResult × List Event :=
  safeRunCommand oracle command

/-- Source regex of the tool-name validator: `/^[\w-]+$/`. -/
def toolNameRe : Regex :=
  seqs [.bos, .cc (.wordOr ['-']), .star (.wordOr ['-']), .eos]

/-- Source regex of the version-flag validator: `/^[-\w]+$/`. -/
def versionFlagRe : Regex :=
  seqs [.bos, .cc (.wordOr ['-']), .star (.wordOr ['-']), .eos]

/-- The guard `!cmd || typeof cmd !== 'string' || !/^[\w-]+$/.test(cmd)`
(negated): a non-empty string matching the identifier pattern. -/
def validToolName (cmd : String) : Bool :=
  !(cmd == "") && rtest toolNameRe cmd.toList

/-- `commandExists(cmd)` (utils/runner.js, hardened generation): validate the
name, then probe with `where`/`which` through the Guarded Executor. -/
def commandExists (oracle : String → RawOutcome) (isWin : Bool) (cmd : String) :
    Bool × List Event :=
  if validToolName cmd then
    let checkCmd := (if isWin then "where " else "which ") ++ cmd
    let (r, tr) := safeRunCommand oracle checkCmd
    (r.success && !(r.stdout == ""), tr)
  else
    (false, [])

/-- `getCommandVersion(cmd, versionFlag)` (utils/runner.js, hardened
generation): validate both inputs, special-case `java`, then run the
version command through the Guarded Executor. -/
def getCommandVersion (oracle : String → RawOutcome) (cmd flag : String) :
    Option String × List Event :=
  if !(validToolName cmd) then (none, [])
  else if !(!(flag == "") && rtest versionFlagRe flag.toList) then (none, [])
  else
    let cmdString := if cmd == "java" then cmd ++ " -version 2>&1" else cmd ++ " " ++ flag
    let (r, tr) := safeRunCommand oracle cmdString
    (if r.success || !(r.stdout == "") then
       some (if r.stdout == "" then r.stderr else r.stdout)
     else none, tr)

/-! ## The unguarded legacy primitives (cited by claim C1)

`runCommand` of utils/runner.js (pre-safety generation) calls `execSync`
directly, and `isElevated` of utils/platform.js probes `net session` on
Windows through a direct `execSync` — neither consults the Classifier. -/

/-- `runCommand(command)` of the unguarded utils/runner.js: identical body to
`_executeCommand`, with no classification step. -/
def runCommandLegacy (oracle : String → RawOutcome) (command : String) :
    ExecResult × List Event :=
  _executeCommand oracle command

/-- The Windows branch of `isElevated()` (utils/platform.js):
`execSync('net session')`, `true` on success, `false` on throw — a direct
spawn that bypasses the Guarded Executor. -/
def isElevatedWin (oracle : String → RawOutcome) : Bool × List Event :=
  ((oracle "net session").ok, [.spawned "net session"])

/-! ## Node.js detector slice (detectors/nodejs.js) -/

/-- The directory as the detector observes it through `fileExists` /
`directoryExists` (both `fs.statSync`-based, read-only). -/
structure DirFS where
  files : List String
  dirs : List String
deriving Repr

def fileExists (fsx : DirFS) (name : String) : Bool := fsx.files.contains name

def directoryExists (fsx : DirFS) (name : String) : Bool := fsx.dirs.contains name

/-- `NodeJSDetector.detect(dir)`: `fileExists('package.json', dir)`. -/
def nodeDetect (fsx : DirFS) : Bool := fileExists fsx "package.json"

/-- `NodeJSDetector.detectPackageManager(dir)`: first matching lockfile,
defaulting to `npm`. -/
def detectPackageManager (fsx : DirFS) : String :=
  if fileExists fsx "bun.lockb" then "bun"
  else if fileExists fsx "pnpm-lock.yaml" then "pnpm"
  else if fileExists fsx "yarn.lock" then "yarn"
  else if fileExists fsx "package-lock.json" then "npm"
  else "npm"

/-- The `dependencies-installed` check of `NodeJSDetector.getChecks()`:
`check: (dir) => directoryExists('node_modules', dir)`. -/
def nodeDepsCheck (fsx : DirFS) : Bool := directoryExists fsx "node_modules"

/-- Its fix builder: ``fix: (analysis) => `${analysis.packageManager || 'npm'}
install` `` where `analyze` sets `packageManager = detectPackageManager dir`
(`none` models a missing/falsy field). -/
def nodeDepsFix (packageManager : Option String) : String :=
  (match packageManager with
   | some pm => if pm == "" then "npm" else pm
   | none => "npm") ++ " install"

/-! ## Docker-Compose availability check (pre-safety docker detector — the
`docker-compose-installed` entry of `getChecks`)

The detector carrying the `docker compose version` probe belongs to the
pre-safety generation of the tree: it pairs with the unguarded
utils/runner.js, whose `runCommand` is a bare `execSync` and whose
`commandExists` validates nothing — no classification happens anywhere on
this path.  (The hardened generation's docker.js has no such probe; its
compose check uses `commandExists` only.) -/

/-- Result of a check callback: the JS function returns the string `'skip'`
or a boolean. -/
inductive CheckRes where
  | skip : CheckRes
  | val : Bool → CheckRes
deriving DecidableEq, Repr

/-- `commandExists(cmd)` of the unguarded utils/runner.js: no name
validation, probe built by interpolation and run through the unguarded
`runCommand`. -/
def commandExistsLegacy (oracle : String → RawOutcome) (isWin : Bool) (cmd : String) :
    Bool × List Event :=
  let checkCmd := (if isWin then "where " else "which ") ++ cmd
  let (r, tr) := runCommandLegacy oracle checkCmd
  (r.success && !(r.stdout == ""), tr)

/-- `check: (dir, analysis)` of the `docker-compose-installed` entry
(pre-safety docker detector): skip unless the analysis saw a compose file,
otherwise
`runCommand('docker compose version').success || commandExists('docker-compose')`
(with JS short-circuit on `||`), both resolved against the unguarded
runner of its generation. -/
def dockerComposeCheckLegacy (oracle : String → RawOutcome) (isWin : Bool)
    (hasCompose : Bool) : CheckRes × List Event :=
  if !hasCompose then (.skip, [])
  else
    let (r, tr1) := runCommandLegacy oracle "docker compose version"
    if r.success then (.val true, tr1)
    else
      let (b, tr2) := commandExistsLegacy oracle isWin "docker-compose"
      (.val b, tr1 ++ tr2)

/-- A docker installation whose CLI has the compose plugin (`docker compose
version` exits 0) but no standalone `docker-compose` binary on the PATH. -/
def oracleComposePlugin : String → RawOutcome := fun c =>
  if c == "docker compose version" then ⟨true, "Docker Compose version v2.24.0", "", 0⟩
  else ⟨false, "", "not found", 1⟩

/-! ## `explain` git-error flow (commands/explain.js — `checkGitErrors`) -/

/-- JS `String.prototype.includes` (case-sensitive substring test). -/
def containsSub (needle hay : List Char) : Bool :=
  needle.isPrefixOf hay ||
  match hay with
  | [] => false
  | _ :: t => containsSub needle t

def inclS (hay needle : String) : Bool := containsSub needle.toList hay.toList

/-- The slice of a returned explanation object that the claims are about:
its `title`, its `category`, and — for the detached-HEAD explanation — the
commit hash interpolated into the explanation text.  The free-text
`explanation`/`reason`/`fixes` fields are static strings not relevant to any
claim and are elided. -/
structure GitFinding where
  title : String
  category : String
  commitHash : Option String
deriving DecidableEq, Repr

/-- The hash shown by the detached-HEAD explanation:
`(await runCommand('git rev-parse --short HEAD')).stdout?.trim() || 'unknown'`. -/
def detachedCommitHash (oracle : String → RawOutcome) : String × List Event :=
  let (r, tr) := runCommand oracle "git rev-parse --short HEAD"
  (if trimS r.stdout == "" then "unknown" else trimS r.stdout, tr)

/-- `checkGitErrors(options)` from the `explain` command, returning the first
matching explanation (or `none`).  `hasProjectFiles` models the
project-indicator scan of the directory listing; `verbose` is
`options.verbose`. -/
def checkGitErrors (oracle : String → RawOutcome) (hasProjectFiles verbose : Bool) :
    Option GitFinding × List Event :=
  let (gitCheck, t1) := runCommand oracle "git rev-parse --git-dir"
  if !gitCheck.success then
    (if hasProjectFiles then some ⟨"Not a Git Repository", "git", none⟩ else none, t1)
  else
    let (headCheck, t2) := runCommand oracle "git symbolic-ref HEAD"
    if !headCheck.success then
      let (commitHash, t3) := detachedCommitHash oracle
      (some ⟨"Detached HEAD State", "git", some commitHash⟩, t1 ++ t2 ++ t3)
    else
      let (statusResult, t3) := runCommand oracle "git status"
      let tAll := t1 ++ t2 ++ t3
      if statusResult.success &&
         (inclS statusResult.stdout "Unmerged paths" ||
          inclS statusResult.stdout "both modified") then
        (some ⟨"Merge Conflict", "git", none⟩, tAll)
      else if statusResult.success && inclS statusResult.stdout "rebase in progress" then
        (some ⟨"Rebase in Progress", "git", none⟩, tAll)
      else if statusResult.success &&
              (inclS statusResult.stdout "Changes not staged" ||
               inclS statusResult.stdout "Changes to be committed") && verbose then
        (some ⟨"Uncommitted Changes", "git", none⟩, tAll)
      else
        let (upstream, t4) := runCommand oracle "git rev-parse --abbrev-ref --symbolic-full-name @\x7bu\x7d"
        if !upstream.success &&
           (inclS upstream.stderr "no upstream" || inclS upstream.stdout "no upstream") then
          let (_, t5) := runCommand oracle "git branch --show-current"
          (some ⟨"No Upstream Branch", "git", none⟩, tAll ++ t4 ++ t5)
        else
          let (diverged, t5) := runCommand oracle "git status -sb"
          if diverged.success && inclS diverged.stdout "ahead" && inclS diverged.stdout "behind" then
            (some ⟨"Branches Have Diverged", "git", none⟩, tAll ++ t4 ++ t5)
          else
            (none, tAll ++ t4 ++ t5)

/-! ## Auxiliary definitions for the claims about shell metacharacters and
the merge-conflict flow -/

/-- Scan of a command string for a shell-metacharacter occurrence that falls
outside the lookaround carve-outs of the metacharacter deny patterns: a
backtick; a `$(`; a chaining character `;` `&` `|` not immediately followed
by `1`; a `>` neither preceded by `2` nor followed by `&`; a `<` not
followed by `&`.  `prev` is the character before the current position
(`none` at the start of the string). -/
def hasUnsafeMeta : Option Char → List Char → Bool
  | _, [] => false
  | prev, c :: rest =>
    c == '`' ||
    (c == '$' && rest.head? == some '(') ||
    ((c == ';' || c == '&' || c == '|') && !(rest.head? == some '1')) ||
    (c == '>' && !(prev == some '2') && !(rest.head? == some '&')) ||
    (c == '<' && !(rest.head? == some '&')) ||
    hasUnsafeMeta (some c) rest

/-- A git world in which the repository check succeeds, `git symbolic-ref
HEAD` fails (detached HEAD), and `git status` reports a merge conflict —
e.g. a conflicted cherry-pick while on a detached HEAD. -/
def oracleDetachedConflict : String → RawOutcome := fun c =>
  if c == "git rev-parse --git-dir" then ⟨true, ".git", "", 0⟩
  else if c == "git status" then
    ⟨true, "HEAD detached at 1a2b3c4\nUnmerged paths:\n  both modified:   a.txt", "", 0⟩
  else ⟨false, "", "fatal: ref HEAD is not a symbolic ref", 1⟩

/-- A git world with a merge conflict on a normal branch: every git query
succeeds and `git status` reports unmerged paths. -/
def oracleMergeConflict : String → RawOutcome := fun c =>
  if c == "git status" then
    ⟨true, "On branch main\nUnmerged paths:\n  both modified:   a.txt", "", 0⟩
  else ⟨true, "ok", "", 0⟩

/-! ## Helper lemmas -/

/-- A classifier-rejected command makes `runCommand`/`safeRunCommand` return
the fabricated blocked result and emit no spawn event. -/
theorem runCommand_of_unsafe (oracle : String → RawOutcome) (c : String)
    (h : (isCommandSafe c).safe = false) :
    runCommand oracle c =
      (⟨false, "", "[SAFETY] Command blocked: " ++ (isCommandSafe c).reason, -1, true⟩,
       [.classified c]) := by
  simp [runCommand, safeRunCommand, h]

/-- A classifier-approved command reaches `_executeCommand`, whose outcome is
the oracle's. -/
theorem runCommand_of_safe (oracle : String → RawOutcome) (c : String)
    (h : (isCommandSafe c).safe = true) :
    runCommand oracle c =
      (if (oracle c).ok then ⟨true, trimS (oracle c).stdout, "", 0, false⟩
       else ⟨false, trimS (oracle c).stdout, (oracle c).stderr, (oracle c).code, false⟩,
       [.classified c, .spawned c]) := by
  simp [runCommand, safeRunCommand, _executeCommand, h]

/-! ## Claim theorems -/

/-- C1 (code bug): the Guarded Executor is *not* the only entry point to
process spawning.  The Windows branch of `isElevated` spawns `net session`
directly via `execSync`, and the legacy `runCommand` of utils/runner.js
spawns any command unchecked — both for commands the Classifier rejects, so
a process is spawned (and a non-blocked result produced) for commands that
fail classification, contradicting the stated invariant. -/
theorem c1_spawn_bypasses_classifier :
    (isCommandSafe "net session").safe = false ∧
    (isElevatedWin (fun _ => ⟨true, "", "", 0⟩)).2 = [.spawned "net session"] ∧
    (isCommandSafe "rm -rf /").safe = false ∧
    (runCommandLegacy (fun _ => ⟨true, "", "", 0⟩) "rm -rf /").2 = [.spawned "rm -rf /"] ∧
    (runCommandLegacy (fun _ => ⟨true, "", "", 0⟩) "rm -rf /").1.blocked = false :=
  ⟨by decide, rfl, by decide, rfl, rfl⟩

/-- C2: any command whose trimmed form matches a pattern of
`DANGEROUS_COMMAND_PATTERNS` is classified unsafe — the deny pass runs
first and short-circuits, so this holds even when an allow pattern also
matches. -/
theorem c2_deny_precedence (s : String)
    (h : anyMatch DANGEROUS_COMMAND_PATTERNS (trimChars s.toList) = true) :
    (isCommandSafe s).safe = false := by
  unfold isCommandSafe
  by_cases he : s = ""
  · rw [if_pos he]
  · rw [if_neg he, if_pos h]

/-- Witness for C2 at a command matching a deny pattern *and* an allow
pattern (`npm install` inside an allowed `git log --format` string): deny
still wins. -/
theorem c2_deny_precedence_witness :
    anyMatch DANGEROUS_COMMAND_PATTERNS (trimChars "git log -1 --format=\"npm install\"".toList) = true ∧
    anyMatch SAFE_COMMAND_PATTERNS (trimChars "git log -1 --format=\"npm install\"".toList) = true ∧
    (isCommandSafe "git log -1 --format=\"npm install\"").safe = false :=
  ⟨by decide, by decide, c2_deny_precedence _ (by decide)⟩

/-- C3: default deny — a command whose trimmed form matches no allowlist
pattern is classified unsafe, and `safe = true` is only ever produced for a
command matching some allowlist pattern. -/
theorem c3_default_deny (s : String) :
    (anyMatch SAFE_COMMAND_PATTERNS (trimChars s.toList) = false →
      (isCommandSafe s).safe = false) ∧
    ((isCommandSafe s).safe = true →
      anyMatch SAFE_COMMAND_PATTERNS (trimChars s.toList) = true) := by
  constructor
  · intro h
    unfold isCommandSafe
    by_cases he : s = ""
    · rw [if_pos he]
    · rw [if_neg he]
      by_cases hd : anyMatch DANGEROUS_COMMAND_PATTERNS (trimChars s.toList) = true
      · rw [if_pos hd]
      · rw [if_neg hd, if_neg (by rw [h]; exact Bool.false_ne_true)]
  · intro h
    by_cases ha : anyMatch SAFE_COMMAND_PATTERNS (trimChars s.toList) = true
    · exact ha
    · exfalso
      unfold isCommandSafe at h
      by_cases he : s = ""
      · rw [if_pos he] at h; exact Bool.noConfusion h
      · rw [if_neg he] at h
        by_cases hd : anyMatch DANGEROUS_COMMAND_PATTERNS (trimChars s.toList) = true
        · rw [if_pos hd] at h; exact Bool.noConfusion h
        · rw [if_neg hd, if_neg ha] at h; exact Bool.noConfusion h


/-- Witness for C3 at `frobnicate --now`, which matches no allow pattern. -/
theorem c3_default_deny_witness :
    anyMatch SAFE_COMMAND_PATTERNS (trimChars "frobnicate --now".toList) = false ∧
    (isCommandSafe "frobnicate --now").safe = false :=
  ⟨by decide, (c3_default_deny "frobnicate --now").1 (by decide)⟩

/-- C4: for a command the Classifier rejects, the Guarded Executor's `run`
returns `success = false, blocked = true, code = -1` and its trace shows the
classification but no spawn — `_executeCommand` is never reached, for any
behaviour of the operating system. -/
theorem c4_blocked_run_no_spawn (oracle : String → RawOutcome) (cmd : String)
    (h : (isCommandSafe cmd).safe = false) :
    safeRunCommand oracle cmd =
      (⟨false, "", "[SAFETY] Command blocked: " ++ (isCommandSafe cmd).reason, -1, true⟩,
       [.classified cmd]) := by
  simp [safeRunCommand, h]

/-- Witness for C4 at `npm install`. -/
theorem c4_blocked_run_no_spawn_witness :
    (isCommandSafe "npm install").safe = false ∧
    safeRunCommand (fun _ => ⟨true, "", "", 0⟩) "npm install" =
      (⟨false, "", "[SAFETY] Command blocked: " ++ (isCommandSafe "npm install").reason, -1, true⟩,
       [.classified "npm install"]) :=
  ⟨by decide, c4_blocked_run_no_spawn _ _ (by decide)⟩

/-- C5: a tool name rejected by the identifier pattern `/^[\w-]+$/` — in
particular one containing shell metacharacters — makes `commandExists`
return `false` and `getCommandVersion` return `null`, with an empty event
trace: the name is never interpolated into a command string, and neither the
Classifier nor the spawn primitive is reached. -/
theorem c5_invalid_tool_name (oracle : String → RawOutcome) (isWin : Bool)
    (name flag : String) (h : rtest toolNameRe name.toList = false) :
    commandExists oracle isWin name = (false, []) ∧
    getCommandVersion oracle name flag = (none, []) := by
  have hv : validToolName name = false := by
    unfold validToolName
    rw [h, Bool.and_false]
  exact ⟨by simp [commandExists, hv], by simp [getCommandVersion, hv]⟩

/-- Witness for C5 at the injection attempt `git; rm -rf /`. -/
theorem c5_invalid_tool_name_witness :
    rtest toolNameRe "git; rm -rf /".toList = false ∧
    commandExists (fun _ => ⟨true, "", "", 0⟩) false "git; rm -rf /" = (false, []) ∧
    getCommandVersion (fun _ => ⟨true, "", "", 0⟩) "git; rm -rf /" "--version" = (none, []) :=
  ⟨by decide,
   (c5_invalid_tool_name (fun _ => ⟨true, "", "", 0⟩) false "git; rm -rf /" "--version" (by decide)).1,
   (c5_invalid_tool_name (fun _ => ⟨true, "", "", 0⟩) false "git; rm -rf /" "--version" (by decide)).2⟩

/-- C8: in a directory with `package.json` but no `node_modules` and no
lockfiles, the Node.js detector detects the project, the
`dependencies-installed` check fails, and the suggested fix string is
exactly `npm install`. -/
theorem c8_node_missing_deps (fsx : DirFS)
    (h1 : fileExists fsx "package.json" = true)
    (h2 : directoryExists fsx "node_modules" = false)
    (h3 : fileExists fsx "bun.lockb" = false)
    (h4 : fileExists fsx "pnpm-lock.yaml" = false)
    (h5 : fileExists fsx "yarn.lock" = false)
    (h6 : fileExists fsx "package-lock.json" = false) :
    nodeDetect fsx = true ∧ nodeDepsCheck fsx = false ∧
    nodeDepsFix (some (detectPackageManager fsx)) = "npm install" := by
  refine ⟨h1, h2, ?_⟩
  simp [detectPackageManager, nodeDepsFix, h3, h4, h5, h6]

/-- Witness for C8 on the one-file directory `{package.json}`. -/
theorem c8_node_missing_deps_witness :
    nodeDetect ⟨["package.json"], []⟩ = true ∧
    nodeDepsCheck ⟨["package.json"], []⟩ = false ∧
    nodeDepsFix (some (detectPackageManager ⟨["package.json"], []⟩)) = "npm install" :=
  c8_node_missing_deps ⟨["package.json"], []⟩
    (by decide) (by decide) (by decide) (by decide) (by decide) (by decide)

/-- C9 (counterexample): the claim says the guarded runner always blocks the
`docker compose version` probe and the check can only succeed through the
`which docker-compose` fallback — but the detector carrying that probe is
the pre-safety one, wired to the unguarded runner: with a compose-plugin
docker and no standalone `docker-compose` binary, the probe is actually
spawned (despite failing classification, with no classification event) and
the check succeeds while the fallback fails. -/
theorem c9_docker_compose_counterexample :
    (isCommandSafe "docker compose version").safe = false ∧
    (commandExistsLegacy oracleComposePlugin false "docker-compose").1 = false ∧
    dockerComposeCheckLegacy oracleComposePlugin false true =
      (.val true, [.spawned "docker compose version"]) :=
  ⟨by decide, by decide, by decide⟩

/-- C9 (amended): `docker compose version` matches the docker-subcommand
deny pattern, so the Classifier rejects it and the Guarded Executor would
always block it; but the availability check issuing it lives in the
pre-safety detector, which spawns the probe through the unguarded runner
without any classification, so the check succeeds whenever the probe itself
exits 0 and falls back to the (equally unguarded) `which`/`where
docker-compose` probe only otherwise. -/
theorem c9_docker_compose_amended :
    (isCommandSafe "docker compose version").safe = false ∧
    (∀ oracle : String → RawOutcome,
      safeRunCommand oracle "docker compose version" =
        (⟨false, "",
          "[SAFETY] Command blocked: " ++ (isCommandSafe "docker compose version").reason,
          -1, true⟩,
         [.classified "docker compose version"])) ∧
    (∀ (oracle : String → RawOutcome) (isWin : Bool),
      dockerComposeCheckLegacy oracle isWin true =
        (if (oracle "docker compose version").ok then
          (.val true, [.spawned "docker compose version"])
         else
          (.val (commandExistsLegacy oracle isWin "docker-compose").1,
           .spawned "docker compose version" ::
             (commandExistsLegacy oracle isWin "docker-compose").2))) := by
  refine ⟨by decide, ?_, ?_⟩
  · intro oracle
    simp [safeRunCommand, show (isCommandSafe "docker compose version").safe = false from by decide]
  · intro oracle isWin
    by_cases hok : (oracle "docker compose version").ok = true <;>
      simp [dockerComposeCheckLegacy, runCommandLegacy, _executeCommand, hok]

/-- C10: `git rev-parse --short HEAD` matches no allowlist pattern, so the
guarded runner always blocks it and the commit hash shown by the
detached-HEAD explanation is always the fallback `unknown`. -/
theorem c10_rev_parse_short_blocked :
    anyMatch SAFE_COMMAND_PATTERNS (trimChars "git rev-parse --short HEAD".toList) = false ∧
    (isCommandSafe "git rev-parse --short HEAD").safe = false ∧
    ∀ oracle : String → RawOutcome,
      detachedCommitHash oracle =
        ("unknown", [.classified "git rev-parse --short HEAD"]) := by
  refine ⟨by decide, by decide, ?_⟩
  intro oracle
  have hb := runCommand_of_unsafe oracle "git rev-parse --short HEAD" (by decide)
  simp [detachedCommitHash, hb]
  decide

/-! ### Lemmas for the metacharacter claim (C6) -/

theorem searchFrom_here (r : Regex) (pre rest : List Char)
    (h : mmatch r pre rest (fun _ _ => true) = true) :
    searchFrom r pre rest = true := by
  unfold searchFrom
  rw [h, Bool.true_or]

theorem searchFrom_later (r : Regex) (pre : List Char) (c : Char) (t : List Char)
    (h : searchFrom r (c :: pre) t = true) :
    searchFrom r pre (c :: t) = true := by
  unfold searchFrom
  simp [h]

/-- For a pattern character with code below 65 (no letter), `i`-flag
matching degenerates to equality. -/
theorem ciEq_of_lowcode (p : Char) (hp : p.toNat < 65) (ch : Char) :
    ciEq p ch = (ch == p) := by
  unfold ciEq
  rcases Nat.lt_or_ge ch.toNat 65 with h1 | h1
  · have e : decide (65 ≤ ch.toNat) = false := by simp; omega
    rw [e]
    simp
  · have e : (ch.toNat + 32 == p.toNat) = false := by
      simp
      omega
    rw [e]
    simp

/-- The lookahead `(?!1)` / `(?!&)` test: `rstr c1` fails at `t` iff the
head of `t` is not `c1` (for a non-letter `c1`). -/
theorem mmatch_single_lit (c1 : Char) (hc : c1.toNat < 65) (pre t : List Char)
    (h : (t.head? == some c1) = false) :
    mmatch (rstr (String.mk [c1])) pre t (fun _ _ => true) = false := by
  have e : rstr (String.mk [c1]) = .seq (.cc (.lit c1)) .eps := rfl
  rw [e]
  cases t with
  | nil => simp [mmatch]
  | cons h' t' =>
    have h2 : (h' == c1) = false := by simpa using h
    simp [mmatch, RClass.check, ciEq_of_lowcode c1 hc, h2]

theorem mmatch_dBacktick (pre t : List Char) :
    mmatch dBacktick pre ('`' :: t) (fun _ _ => true) = true := by
  have e : dBacktick = .seq (.cc (.lit '`')) .eps := rfl
  rw [e]
  simp [mmatch, RClass.check, ciEq]

theorem mmatch_dSubst (pre t : List Char) :
    mmatch dSubst pre ('$' :: '(' :: t) (fun _ _ => true) = true := by
  have e : dSubst = .seq (.cc (.lit '$')) (.seq (.cc (.lit '(')) .eps) := rfl
  rw [e]
  simp [mmatch, RClass.check, ciEq]

theorem mmatch_dChain (c : Char) (pre t : List Char)
    (hc : (c == ';' || c == '&' || c == '|') = true)
    (h1 : (t.head? == some '1') = false) :
    mmatch dChain pre (c :: t) (fun _ _ => true) = true := by
  have hc3 : c = ';' ∨ c = '&' ∨ c = '|' := by
    simp only [Bool.or_eq_true, beq_iff_eq] at hc
    tauto
  have e : dChain = .seq (.cc (.oneOf [';', '&', '|'])) (.nla (rstr "1")) := rfl
  rw [e]
  cases t with
  | nil =>
    rcases hc3 with h | h | h <;> subst h <;> simp [mmatch, RClass.check]
  | cons h' t' =>
    have h2 : (h' == '1') = false := by simpa using h1
    rcases hc3 with h | h | h <;> subst h <;>
      simp [mmatch, RClass.check, ciEq_of_lowcode '1' (by decide), h2]

theorem mmatch_dRedirOut (pre t : List Char)
    (hp : (pre.head? == some '2') = false)
    (h1 : (t.head? == some '&') = false) :
    mmatch dRedirOut pre ('>' :: t) (fun _ _ => true) = true := by
  have e : dRedirOut =
      .seq (.nlb '2') (.seq (.cc (.oneOf ['>'])) (.seq (.nla (rstr "&")) .eps)) := rfl
  rw [e]
  cases t with
  | nil =>
    cases pre with
    | nil => simp [mmatch, RClass.check]
    | cons p pre' =>
      have hp2 : (p == '2') = false := by simpa using hp
      simp [mmatch, RClass.check, hp2]
  | cons h' t' =>
    have h2 : (h' == '&') = false := by simpa using h1
    cases pre with
    | nil => simp [mmatch, RClass.check, ciEq_of_lowcode '&' (by decide), h2]
    | cons p pre' =>
      have hp2 : (p == '2') = false := by simpa using hp
      simp [mmatch, RClass.check, ciEq_of_lowcode '&' (by decide), h2, hp2]

theorem mmatch_dRedirIn (pre t : List Char)
    (h1 : (t.head? == some '&') = false) :
    mmatch dRedirIn pre ('<' :: t) (fun _ _ => true) = true := by
  have e : dRedirIn = .seq (.cc (.oneOf ['<'])) (.nla (rstr "&")) := rfl
  rw [e]
  simp only [mmatch, RClass.check]
  cases t with
  | nil => simp
  | cons h' t' =>
    have h2 : (h' == '&') = false := by simpa using h1
    simp [ciEq_of_lowcode '&' (by decide), h2]

/-- A metacharacter occurrence outside the lookaround carve-outs makes one
of the five metacharacter deny patterns match. -/
theorem metaDeny_searchFrom (rest : List Char) : ∀ pre : List Char,
    hasUnsafeMeta pre.head? rest = true →
    (searchFrom dChain pre rest || searchFrom dSubst pre rest ||
     searchFrom dBacktick pre rest || searchFrom dRedirOut pre rest ||
     searchFrom dRedirIn pre rest) = true := by
  induction rest with
  | nil => intro pre h; exact absurd h (by simp [hasUnsafeMeta])
  | cons c t ih =>
    intro pre h
    unfold hasUnsafeMeta at h
    simp only [Bool.or_eq_true, Bool.and_eq_true] at h
    rcases h with ((((hbt | hsub) | hch) | hout) | hin) | hrec
    · -- backtick
      have hc : c = '`' := by simpa using hbt
      subst hc
      have := searchFrom_here dBacktick pre ('`' :: t) (mmatch_dBacktick pre t)
      simp [this]
    · -- `$(`
      obtain ⟨hd, hhd⟩ := hsub
      have hc : c = '$' := by simpa using hd
      subst hc
      cases t with
      | nil => simp at hhd
      | cons c2 t2 =>
        have hc2 : c2 = '(' := by simpa using hhd
        subst hc2
        have := searchFrom_here dSubst pre ('$' :: '(' :: t2) (mmatch_dSubst pre t2)
        simp [this]
    · -- chaining character not followed by `1`
      obtain ⟨hd, hhd⟩ := hch
      have h1 : (t.head? == some '1') = false := by simpa using hhd
      have := searchFrom_here dChain pre (c :: t) (mmatch_dChain c pre t (by simpa using hd) h1)
      simp [this]
    · -- `>` neither after `2` nor before `&`
      obtain ⟨⟨hd, hprev⟩, hhd⟩ := hout
      have hc : c = '>' := by simpa using hd
      subst hc
      have hp : (pre.head? == some '2') = false := by simpa using hprev
      have h1 : (t.head? == some '&') = false := by simpa using hhd
      have := searchFrom_here dRedirOut pre ('>' :: t) (mmatch_dRedirOut pre t hp h1)
      simp [this]
    · -- `<` not before `&`
      obtain ⟨hd, hhd⟩ := hin
      have hc : c = '<' := by simpa using hd
      subst hc
      have h1 : (t.head? == some '&') = false := by simpa using hhd
      have := searchFrom_here dRedirIn pre ('<' :: t) (mmatch_dRedirIn pre t h1)
      simp [this]
    · -- occurrence further right
      have hrec' : hasUnsafeMeta (c :: pre).head? t = true := by simpa using hrec
      have := ih (c :: pre) hrec'
      simp only [Bool.or_eq_true] at this
      rcases this with (((h1 | h2) | h3) | h4) | h5
      · simp [searchFrom_later _ _ _ _ h1]
      · simp [searchFrom_later _ _ _ _ h2]
      · simp [searchFrom_later _ _ _ _ h3]
      · simp [searchFrom_later _ _ _ _ h4]
      · simp [searchFrom_later _ _ _ _ h5]

/-- Any command containing a metacharacter occurrence outside the
lookaround carve-outs is classified unsafe. -/
theorem hasUnsafeMeta_denied (s : String)
    (h : hasUnsafeMeta none (trimChars s.toList) = true) :
    (isCommandSafe s).safe = false := by
  have hsf := metaDeny_searchFrom (trimChars s.toList) [] (by simpa using h)
  simp only [Bool.or_eq_true] at hsf
  have hany : anyMatch DANGEROUS_COMMAND_PATTERNS (trimChars s.toList) = true := by
    unfold anyMatch
    rw [List.any_eq_true]
    rcases hsf with (((h1 | h2) | h3) | h4) | h5
    · exact ⟨dChain, by simp [DANGEROUS_COMMAND_PATTERNS], h1⟩
    · exact ⟨dSubst, by simp [DANGEROUS_COMMAND_PATTERNS], h2⟩
    · exact ⟨dBacktick, by simp [DANGEROUS_COMMAND_PATTERNS], h3⟩
    · exact ⟨dRedirOut, by simp [DANGEROUS_COMMAND_PATTERNS], h4⟩
    · exact ⟨dRedirIn, by simp [DANGEROUS_COMMAND_PATTERNS], h5⟩
  unfold isCommandSafe
  by_cases he : s = ""
  · rw [if_pos he]
  · rw [if_neg he, if_pos hany]

/-- C6 (counterexample): the claim says every command containing `;` (other
than via the `2>&1` idiom) is classified unsafe, but
`git log -1 --format=";1"` contains a `;`, contains no `2>&1`, and is
classified safe — the `;1` sequence slips through the `[;&|](?!1)`
lookahead and the string then matches the quoted `--format` allow
pattern. -/
theorem c6_metachar_counterexample :
    (trimChars "git log -1 --format=\";1\"".toList).contains ';' = true ∧
    containsSub "2>&1".toList "git log -1 --format=\";1\"".toList = false ∧
    (isCommandSafe "git log -1 --format=\";1\"").safe = true :=
  ⟨by decide, by decide, by decide⟩

/-- C6 (amended): every command containing a backtick, a `$(`, a chaining
character `;` `&` `|` not immediately followed by `1`, a `>` neither
preceded by `2` nor followed by `&`, or a `<` not followed by `&`, is
classified unsafe; the carve-outs are exactly the lookarounds of the deny
patterns (of which the literal `2>&1` idiom is the intended instance), so
`java -version 2>&1` is safe and `git status; rm -rf .` is not. -/
theorem c6_metachar_deny_amended :
    (∀ s : String, hasUnsafeMeta none (trimChars s.toList) = true →
      (isCommandSafe s).safe = false) ∧
    (isCommandSafe "java -version 2>&1").safe = true ∧
    (isCommandSafe "git status; rm -rf .").safe = false :=
  ⟨fun s h => hasUnsafeMeta_denied s h, by decide, by decide⟩

/-- Witness for the amended C6 at `git status; rm -rf .`. -/
theorem c6_metachar_deny_amended_witness :
    hasUnsafeMeta none (trimChars "git status; rm -rf .".toList) = true ∧
    (isCommandSafe "git status; rm -rf .").safe = false :=
  ⟨by decide, c6_metachar_deny_amended.1 "git status; rm -rf ." (by decide)⟩

/-- C7 (counterexample): the claim says that whenever the directory is a git
repository and the `git status` output contains conflict markers, `explain`
returns the Merge Conflict explanation — but in a detached-HEAD state with
a conflict (e.g. a conflicted cherry-pick on a detached HEAD) the earlier
detached-HEAD branch returns first. -/
theorem c7_merge_conflict_counterexample :
    (oracleDetachedConflict "git rev-parse --git-dir").ok = true ∧
    (oracleDetachedConflict "git status").ok = true ∧
    inclS (trimS (oracleDetachedConflict "git status").stdout) "Unmerged paths" = true ∧
    (checkGitErrors oracleDetachedConflict true false).1 =
      some ⟨"Detached HEAD State", "git", some "unknown"⟩ ∧
    (⟨"Detached HEAD State", "git", some "unknown"⟩ : GitFinding) ≠
      ⟨"Merge Conflict", "git", none⟩ :=
  ⟨by decide, by decide, by decide, by decide, by decide⟩

/-- C7 (amended): in a git repository that is *not* in detached HEAD
(`git symbolic-ref HEAD` succeeds), when `git status` succeeds and its
output contains `Unmerged paths` or `both modified`, `checkGitErrors`
returns the Merge Conflict explanation and no other. -/
theorem c7_merge_conflict_amended (oracle : String → RawOutcome) (hpf vb : Bool)
    (h1 : (oracle "git rev-parse --git-dir").ok = true)
    (h2 : (oracle "git symbolic-ref HEAD").ok = true)
    (h3 : (oracle "git status").ok = true)
    (h4 : inclS (trimS (oracle "git status").stdout) "Unmerged paths" = true ∨
          inclS (trimS (oracle "git status").stdout) "both modified" = true) :
    (checkGitErrors oracle hpf vb).1 = some ⟨"Merge Conflict", "git", none⟩ := by
  have e1 := runCommand_of_safe oracle "git rev-parse --git-dir" (by decide)
  rw [if_pos h1] at e1
  have e2 := runCommand_of_safe oracle "git symbolic-ref HEAD" (by decide)
  rw [if_pos h2] at e2
  have e3 := runCommand_of_safe oracle "git status" (by decide)
  rw [if_pos h3] at e3
  unfold checkGitErrors
  rw [e1, e2, e3]
  rcases h4 with h4 | h4 <;> (simp [inclS] at h4; simp [inclS, h4])

/-- Witness for the amended C7 in a merge-conflicted git world. -/
theorem c7_merge_conflict_amended_witness :
    (oracleMergeConflict "git rev-parse --git-dir").ok = true ∧
    (oracleMergeConflict "git symbolic-ref HEAD").ok = true ∧
    (oracleMergeConflict "git status").ok = true ∧
    inclS (trimS (oracleMergeConflict "git status").stdout) "Unmerged paths" = true ∧
    (checkGitErrors oracleMergeConflict true false).1 = some ⟨"Merge Conflict", "git", none⟩ :=
  ⟨by decide, by decide, by decide, by decide,
   c7_merge_conflict_amended oracleMergeConflict true false
     (by decide) (by decide) (by decide) (Or.inl (by decide))⟩

end DevHelper
